import Mathlib

/-!
Verification of the Recurring Content Generation & Freshness Engine
(blog generator / scheduler services and the dream-analysis parser).

The TypeScript sources are shallowly embedded: strings are `List Char`,
JS numbers that carry fractional similarity/confidence values are `ℚ`,
`Math.random()`-driven index choices are an explicit `Nat` parameter
(every index of the target array is reachable as `k % length`), and each
external service call (generative service, persistence layer) is an
explicit `Except` outcome supplied through an environment record.

JS character-level operations (`toLowerCase`, the `\s` regex class,
`String.prototype.includes`) are modelled on the basic-Latin range; all
candidate pools and category keys in the repository are ASCII.
-/

namespace DreamBlog

/-- Shorthand: string literal to the character-list string model. -/
def str (s : String) : List Char := s.toList

/-- Models `String.prototype.toLowerCase` for one basic-Latin character:
uppercase `A`–`Z` (codes 65–90) maps to `a`–`z`, everything else is
unchanged. -/
def jsToLowerChar (c : Char) : Char :=
  if 65 ≤ c.toNat ∧ c.toNat ≤ 90 then Char.ofNat (c.toNat + 32) else c

/-- Models `s.toLowerCase()`. -/
def jsToLower (s : List Char) : List Char := s.map jsToLowerChar

/-- Models the regex class `\s` (ASCII portion): space, tab, newline,
vertical tab, form feed, carriage return. -/
def isJsSpace (c : Char) : Bool :=
  c.toNat = 32 || (9 ≤ c.toNat && c.toNat ≤ 13)

/-- Models `hay.includes(needle)`: `needle` occurs as a contiguous
substring of `hay` (the empty string is contained in every string). -/
def jsIncludes : List Char → List Char → Bool
  | [], needle => needle.isEmpty
  | c :: t, needle => needle.isPrefixOf (c :: t) || jsIncludes t needle

mutual

/-- `splitWsAux acc l`: accumulating worker for `splitWs`; `acc` holds the
current segment, reversed. -/
def splitWsAux (acc : List Char) : List Char → List (List Char)
  | [] => [acc.reverse]
  | c :: cs =>
    if isJsSpace c then acc.reverse :: splitWsSkip cs
    else splitWsAux (c :: acc) cs

/-- `splitWsSkip l`: worker for `splitWs` that is inside a whitespace run;
skips further whitespace before starting the next segment. -/
def splitWsSkip : List Char → List (List Char)
  | [] => [[]]
  | c :: cs => if isJsSpace c then splitWsSkip cs else splitWsAux [c] cs

end

/-- Models `s.split(/\s+/)`: segments between maximal whitespace runs.
As in JS, leading/trailing whitespace contributes an empty segment and
`"".split(/\s+/)` is `[""]`. -/
def splitWs (s : List Char) : List (List Char) := splitWsAux [] s

/-- Models JS `o || d` where `o` is a string-valued field that may be
absent (`none` = `undefined`/`null`); the empty string is also falsy. -/
def jsOrStr (o : Option (List Char)) (d : List Char) : List Char :=
  match o with
  | none => d
  | some s => if s = [] then d else s

-- =========================================================================
-- generateSlug  (src/services/blogGenerator.ts, lines 304–311)
-- =========================================================================

/-- The character class kept by `.replace(/[^a-z0-9\s-]/g, '')` (applied
after `toLowerCase`): `a`–`z` (97–122), `0`–`9` (48–57), whitespace,
hyphen. -/
def isSlugKeep (c : Char) : Bool :=
  (97 ≤ c.toNat && c.toNat ≤ 122) || (48 ≤ c.toNat && c.toNat ≤ 57) ||
    isJsSpace c || c = '-'

/-- Worker for `.replace(/\s+/g, '-')`: the flag records whether the
previous character was part of the current whitespace run. -/
def replaceSpaceRunsAux (inRun : Bool) : List Char → List Char
  | [] => []
  | c :: cs =>
    if isJsSpace c then
      if inRun then replaceSpaceRunsAux true cs
      else '-' :: replaceSpaceRunsAux true cs
    else c :: replaceSpaceRunsAux false cs

/-- Models `.replace(/\s+/g, '-')`: every maximal whitespace run becomes a
single hyphen. -/
def replaceSpaceRuns (s : List Char) : List Char := replaceSpaceRunsAux false s

/-- Worker for `.replace` with the hyphen-run regex: the flag records whether the
previous character was part of the current hyphen run. -/
def collapseHyphenRunsAux (inRun : Bool) : List Char → List Char
  | [] => []
  | c :: cs =>
    if c = '-' then
      if inRun then collapseHyphenRunsAux true cs
      else '-' :: collapseHyphenRunsAux true cs
    else c :: collapseHyphenRunsAux false cs

/-- Models `.replace` with the hyphen-run regex: every maximal hyphen run becomes a
single hyphen. -/
def collapseHyphenRuns (s : List Char) : List Char := collapseHyphenRunsAux false s

/-- `generateSlug(title)` from `blogGenerator.ts`:
lowercase, strip characters outside `[a-z0-9\s-]`, collapse whitespace
runs to single hyphens, collapse hyphen runs, truncate to 60 characters. -/
def generateSlug (title : List Char) : List Char :=
  (collapseHyphenRuns (replaceSpaceRuns ((jsToLower title).filter isSlugKeep))).take 60

/-- Characters that can occur in a `generateSlug` output: lowercase
basic-Latin letters, digits, hyphen. -/
def isSlugOut (c : Char) : Bool :=
  (97 ≤ c.toNat && c.toNat ≤ 122) || (48 ≤ c.toNat && c.toNat ≤ 57) || c = '-'

/-- No two adjacent hyphens. -/
def NoAdjHyp (l : List Char) : Prop := l.Chain' (fun a b => ¬(a = '-' ∧ b = '-'))

-- =========================================================================
-- Blog-post construction from the parsed generative response
-- (blogGenerator.ts lines 555–564 and 695–704; identical field logic)
-- =========================================================================

/-- The parsed JSON object returned by the formatting-stage generative call.
`none` models an absent (`undefined`) field; `title` and `content` are
taken as present, since the downstream code dereferences them
unconditionally. -/
structure ParsedBlogJson where
  title : List Char
  subtitle? : Option (List Char)
  slug? : Option (List Char)
  excerpt? : Option (List Char)
  content : List Char
  meta_title? : Option (List Char)
  meta_description? : Option (List Char)
  tags? : Option (List (List Char))
deriving DecidableEq

/-- The `GeneratedBlogPost` object built from the parsed response. -/
structure GeneratedBlogPost where
  title : List Char
  subtitle? : Option (List Char)
  slug : List Char
  excerpt? : Option (List Char)
  content : List Char
  meta_title? : Option (List Char)
  meta_description? : Option (List Char)
  tags : List (List Char)
deriving DecidableEq

/-- The result object built by `generateDreamBlogPost` /
`generateEducationalPost` from the parsed response: every field is copied;
`slug` falls back to `generateSlug(parsed.title)` when `parsed.slug` is
falsy, and `tags` falls back to `[]`. -/
def formatBlogPost (p : ParsedBlogJson) : GeneratedBlogPost :=
  { title := p.title
    subtitle? := p.subtitle?
    slug := jsOrStr p.slug? (generateSlug p.title)
    excerpt? := p.excerpt?
    content := p.content
    meta_title? := p.meta_title?
    meta_description? := p.meta_description?
    tags := p.tags?.getD [] }

-- =========================================================================
-- Freshness selector (selectFreshItem, blogGenerator.ts lines 314–352)
-- =========================================================================

/-- A candidate together with its computed similarity score (the
`{ item, similarity }` objects built by `selectFreshItem`). -/
structure Scored where
  item : List Char
  similarity : ℚ
deriving DecidableEq

/-- Models `arr[Math.floor(Math.random() * arr.length)]` on a non-empty
array: the `Nat` parameter `k` chooses index `k % arr.length`, so every
valid index is reachable for some value of the random source. (On an empty
array the code would yield `undefined`; the default is never hit at the
non-empty call sites.) -/
def pickAt (l : List Scored) (k : Nat) : Scored := l.getD (k % l.length) ⟨[], 0⟩

/-- `getRandomItem(arr)` from `blogGenerator.ts` line 300, with the random
index modelled as `k % arr.length`. -/
def getRandomItem (l : List (List Char)) (k : Nat) : List Char :=
  l.getD (k % l.length) []

/-- A candidate word counts as matched iff some history word contains it
or is contained by it (substring containment both ways). -/
def wordMatched (historyWords : List (List Char)) (w : List Char) : Bool :=
  historyWords.any (fun rw => jsIncludes rw w || jsIncludes w rw)

/-- The similarity reduce of `selectFreshItem` (lines 324–332): over the
lowercased history, the maximum of matched-word-count over
`max(itemWords.length, 1)`, starting from 0. The JS quotient
`overlap / Math.max(itemWords.length, 1)` is the exact rational
`mkRat overlap (max itemWords.length 1)`. -/
def similarityTo (itemLower : List Char) (recentLower : List (List Char)) : ℚ :=
  recentLower.foldl
    (fun mx recent =>
      let itemWords := splitWs itemLower
      let recentWords := splitWs recent
      let overlap := (itemWords.filter (wordMatched recentWords)).length
      max mx (mkRat overlap (max itemWords.length 1)))
    0

/-- The similarity `selectFreshItem` assigns to one candidate:
`item.toLowerCase()` scored against `recentlyUsed.map(r => r.toLowerCase())`. -/
def itemSimilarity (item : List Char) (recentlyUsed : List (List Char)) : ℚ :=
  similarityTo (jsToLower item) (recentlyUsed.map jsToLower)

/-- The `scored` array of `selectFreshItem`. -/
def scoredItems (items recentlyUsed : List (List Char)) : List Scored :=
  items.map (fun item => ⟨item, itemSimilarity item recentlyUsed⟩)

/-- The `fresh` array of `selectFreshItem`: candidates with similarity
strictly below 0.3. -/
def freshItems (items recentlyUsed : List (List Char)) : List Scored :=
  (scoredItems items recentlyUsed).filter (fun s => s.similarity < mkRat 3 10)

/-- Ascending stable sort by similarity, modelling
`scored.sort((a, b) => a.similarity - b.similarity)` (JS array sort is
stable and this comparator orders ascending by similarity). -/
def sortBySimilarity (l : List Scored) : List Scored :=
  List.insertionSort (fun a b => a.similarity ≤ b.similarity) l

instance : IsTotal Scored (fun a b => a.similarity ≤ b.similarity) :=
  ⟨fun a b => le_total a.similarity b.similarity⟩

instance : IsTrans Scored (fun a b => a.similarity ≤ b.similarity) :=
  ⟨fun _ _ _ h1 h2 => le_trans h1 h2⟩

/-- `selectFreshItem(items, recentlyUsed, fallbackRandom)`: pick randomly
among the sub-0.3 candidates if any exist; otherwise, with
`fallbackRandom`, sort ascending by similarity and pick randomly among the
first `min 5 length` entries; otherwise pick randomly among all items. -/
def selectFreshItem (items recentlyUsed : List (List Char))
    (fallbackRandom : Bool) (k : Nat) : List Char :=
  if (freshItems items recentlyUsed).length > 0 then
    (pickAt (freshItems items recentlyUsed) k).item
  else if fallbackRandom then
    (pickAt ((sortBySimilarity (scoredItems items recentlyUsed)).take
      (min 5 (sortBySimilarity (scoredItems items recentlyUsed)).length)) k).item
  else getRandomItem items k

-- =========================================================================
-- Educational topic selection (topicSimilarity / getRandomEducationalTopic,
-- blogGenerator.ts lines 946–985)
-- =========================================================================

/-- `topicSimilarity(topic, usedTopics)`: the maximum over used topics of
common-word-count over `max(topicWords.length, 1)`, starting from 0; words
are compared by two-way substring containment. The topic is lowercased;
used topics are already lowercase (built so by `getUsedTopics`). -/
def topicSimilarity (topic : List Char) (usedTopics : List (List Char)) : ℚ :=
  let topicWords := splitWs (jsToLower topic)
  usedTopics.foldl
    (fun mx used =>
      let usedWords := splitWs used
      let commonWords := topicWords.filter (wordMatched usedWords)
      max mx (mkRat commonWords.length (max topicWords.length 1)))
    0

/-- The `scoredTopics` array of `getRandomEducationalTopic`. -/
def scoredTopics (allTopics usedTopics : List (List Char)) : List Scored :=
  allTopics.map (fun topic => ⟨topic, topicSimilarity topic usedTopics⟩)

/-- The `freshTopics` array: topics with similarity strictly below 0.5. -/
def freshTopics (allTopics usedTopics : List (List Char)) : List Scored :=
  (scoredTopics allTopics usedTopics).filter (fun t => t.similarity < mkRat 1 2)

/-- `getRandomEducationalTopic(category)` with the category's topic pool
and used-topic history passed explicitly: pick randomly among the fresh
topics if any exist; otherwise sort ascending by similarity and return the
first element (`scoredTopics[0].topic` after the in-place sort) — no
randomness is consumed in the fallback. -/
def getRandomEducationalTopic (allTopics usedTopics : List (List Char))
    (k : Nat) : List Char :=
  if (freshTopics allTopics usedTopics).length > 0 then
    (pickAt (freshTopics allTopics usedTopics) k).item
  else ((sortBySimilarity (scoredTopics allTopics usedTopics)).getD 0 ⟨[], 0⟩).item

-- =========================================================================
-- Category-fit validation (validateCategoryFit, blogGenerator.ts 749–804)
-- =========================================================================

/-- The keys of `STRICT_CATEGORY_DEFINITIONS`. The record's textual
payload (name, description, inclusion/exclusion rules, examples) feeds
only the generative prompt, whose wording the spec declares out of scope;
the control flow of `validateCategoryFit` depends only on key presence. -/
def STRICT_CATEGORY_KEYS : List (List Char) :=
  [str "dream-stories", str "dream-science", str "sleep-tips", str "symbolism"]

/-- The JSON object parsed from the validator's service response;
`isValid` models the truthiness of the reported `isValid` field. -/
structure ValidationJson where
  isValid : Bool
  confidence : ℚ
  suggestedCategory? : Option (List Char)
  reason? : Option (List Char)
deriving DecidableEq

/-- Outcome of the validator's generative-service call: the call or
`JSON.parse` throws, the response lacks a text block, or a parsed object. -/
inductive ValidatorOutcome where
  | throwErr
  | noText
  | parsed (r : ValidationJson)
deriving DecidableEq

/-- The verdict returned by `validateCategoryFit`. -/
structure ValidationVerdict where
  isValid : Bool
  suggestedCategory? : Option (List Char) := none
  reason? : Option (List Char) := none
deriving DecidableEq

/-- `validateCategoryFit(content, title, intendedCategory)` paired with
whether the generative service was invoked. An unknown category returns
`{isValid: true}` before any service call; a throwing call or missing
text block defaults to `{isValid: true}`; a parsed response yields
`isValid = reported isValid && confidence > 0.7` (0.7 is `mkRat 7 10`). `content` and `title`
feed only the prompt (first 1500 characters of `content`). -/
def validateCategoryFit (_content _title : List Char)
    (intendedCategory : List Char)
    (outcome : ValidatorOutcome) : ValidationVerdict × Bool :=
  if intendedCategory ∉ STRICT_CATEGORY_KEYS then ({ isValid := true }, false)
  else
    match outcome with
    | .throwErr => ({ isValid := true }, true)
    | .noText => ({ isValid := true }, true)
    | .parsed r =>
        ({ isValid := r.isValid && decide (mkRat 7 10 < r.confidence)
           suggestedCategory? := r.suggestedCategory?
           reason? := r.reason? }, true)

/-- The six-topic pool of the C2 counterexample: against the history
`["alpha bravo charlie delta echoo"]` the similarities are 1, 2/3, 1/2,
3/4, 4/5, 5/6 — none strictly below 0.5. -/
def c2Pool : List (List Char) :=
  [str "alpha bravo",
   str "alpha bravo uno",
   str "alpha uno",
   str "alpha bravo charlie uno",
   str "alpha bravo charlie delta uno",
   str "alpha bravo charlie delta echoo uno"]

/-- The used-topic history of the C2 counterexample. -/
def c2Used : List (List Char) := [str "alpha bravo charlie delta echoo"]

-- =========================================================================
-- Dream-analysis response validation (analyzeDream, claude service)
-- =========================================================================

/-- Raw parsed symbol entry of the analysis response; `none` models a
missing (or otherwise falsy, for the string fields) value. -/
structure RawSymbol where
  name? : Option (List Char)
  meaning? : Option (List Char)
  significance? : Option (List Char)
deriving DecidableEq

/-- Raw parsed emotion entry; `intensity?` is `some` exactly when the
field is a number (`typeof e.intensity === 'number'`). -/
structure RawEmotion where
  name? : Option (List Char)
  intensity? : Option ℚ
  color? : Option (List Char)
deriving DecidableEq

/-- Raw parsed analysis response; `themes?` is `none` when the field is
missing or not an array (`Array.isArray`), `symbols?`/`emotions?` are
`none` when falsy. -/
structure RawAnalysis where
  interpretation? : Option (List Char)
  symbols? : Option (List RawSymbol)
  emotions? : Option (List RawEmotion)
  themes? : Option (List (List Char))
  advice? : Option (List Char)
deriving DecidableEq

/-- Validated symbol entry of a `DreamAnalysis`. -/
structure SymbolEntry where
  name : List Char
  meaning : List Char
  significance : List Char
deriving DecidableEq

/-- Validated emotion entry of a `DreamAnalysis`. -/
structure EmotionEntry where
  name : List Char
  intensity : ℚ
  color : List Char
deriving DecidableEq

/-- The `DreamAnalysis` object built by `analyzeDream` (its `analyzed_at`
wall-clock timestamp is outside the model). -/
structure DreamAnalysis where
  interpretation : List Char
  symbols : List SymbolEntry
  emotions : List EmotionEntry
  themes : List (List Char)
  advice : List Char
deriving DecidableEq

/-- Models
`['high', 'medium', 'low'].includes(s.significance) ? s.significance : 'medium'`
(`includes` applied to a missing value is false). -/
def parseSignificance (o : Option (List Char)) : List Char :=
  match o with
  | some v =>
      if v = str "high" ∨ v = str "medium" ∨ v = str "low" then v
      else str "medium"
  | none => str "medium"

/-- Models
`typeof e.intensity === 'number' ? Math.min(100, Math.max(0, e.intensity)) : 50`. -/
def parseIntensity (o : Option ℚ) : ℚ :=
  match o with
  | some x => min 100 (max 0 x)
  | none => 50

/-- One symbol entry of the validated analysis. -/
def parseSymbol (s : RawSymbol) : SymbolEntry :=
  { name := jsOrStr s.name? (str "Unknown")
    meaning := jsOrStr s.meaning? []
    significance := parseSignificance s.significance? }

/-- One emotion entry of the validated analysis. -/
def parseEmotion (e : RawEmotion) : EmotionEntry :=
  { name := jsOrStr e.name? (str "Unknown")
    intensity := parseIntensity e.intensity?
    color := jsOrStr e.color? (str "#8b5cf6") }

/-- The validate-and-transform step `analyzeDream` applies to a
successfully parsed response object. -/
def analyzeDreamParse (p : RawAnalysis) : DreamAnalysis :=
  { interpretation :=
      jsOrStr p.interpretation? (str "Unable to generate interpretation.")
    symbols := (p.symbols?.getD []).map parseSymbol
    emotions := (p.emotions?.getD []).map parseEmotion
    themes := p.themes?.getD []
    advice := jsOrStr p.advice? [] }

-- =========================================================================
-- Generation pipelines and scheduler firings
-- (blogGenerator.ts 355–742, blogScheduler.ts 36–118)
-- =========================================================================

/-- External-call actions performed during a pipeline run;
`validatorCall` denotes an invocation of `validateCategoryFit`. -/
inductive Action where
  | sourceCall
  | analysisCall
  | formatCall
  | validatorCall
  | insertCall
deriving DecidableEq

/-- Failure of one step: the service call throws, the response lacks a
text block, the response does not parse as JSON, or — for the educational
pipeline — the category definition lookup yields `undefined` and building
the prompt dereferences it (TypeError). -/
inductive StageError where
  | apiError
  | noText
  | parseError
  | typeError
deriving DecidableEq

/-- The generated-dream object (source stage). Only fields consumed by
downstream control flow are modelled; the narrative fields feed prompts
only. -/
structure GeneratedDream where
  title : List Char
  content : List Char
  isLucid : Bool
  tags : List (List Char)
deriving DecidableEq

/-- Environment of one `generateFullDreamPost` run: the outcome of each
of its three generative-service calls (for a successful call, the parsed
response object). -/
structure DreamPipelineEnv where
  dreamResult : Except StageError GeneratedDream
  analysisResult : Except StageError RawAnalysis
  formatResult : Except StageError ParsedBlogJson

/-- `generateFullDreamPost()`: run the source, analysis and formatting
stages in order, aborting on the first failure; paired with the list of
service calls made. `validateCategoryFit` is not called anywhere in this
pipeline. -/
def generateFullDreamPost (env : DreamPipelineEnv) :
    Except StageError (GeneratedDream × DreamAnalysis × GeneratedBlogPost)
      × List Action :=
  match env.dreamResult with
  | .error e => (.error e, [.sourceCall])
  | .ok dream =>
    match env.analysisResult with
    | .error e => (.error e, [.sourceCall, .analysisCall])
    | .ok rawAnalysis =>
      match env.formatResult with
      | .error e => (.error e, [.sourceCall, .analysisCall, .formatCall])
      | .ok parsed =>
        (.ok (dream, analyzeDreamParse rawAnalysis, formatBlogPost parsed),
          [.sourceCall, .analysisCall, .formatCall])

/-- Environment of one `generateEducationalPost` run: the input category,
the outcome of the one formatting generative call, and the validator
service outcome (consumed by the `validateCategoryFit` invocation, whose
verdict is only logged). -/
structure EduPipelineEnv where
  category : List Char
  formatResult : Except StageError ParsedBlogJson
  validatorOutcome : ValidatorOutcome

/-- `generateEducationalPost(input)`: a category outside
`STRICT_CATEGORY_DEFINITIONS` crashes while building the prompt
(`categoryDef.name` on `undefined`); otherwise the single generative call
produces the post and, on success, `validateCategoryFit` is invoked on the
result before it is returned. -/
def generateEducationalPost (env : EduPipelineEnv) :
    Except StageError GeneratedBlogPost × List Action :=
  if env.category ∈ STRICT_CATEGORY_KEYS then
    match env.formatResult with
    | .error e => (.error e, [.formatCall])
    | .ok parsed => (.ok (formatBlogPost parsed), [.formatCall, .validatorCall])
  else (.error .typeError, [])

/-- `true` iff the run produced a result. -/
def pipelineOk {α : Type} (r : Except StageError α) : Bool :=
  match r with
  | .ok _ => true
  | .error _ => false

/-- Trace of one scheduler firing: whether the persistence insert was
invoked, whether an error escaped the handler, and the registered-jobs map
after the firing. -/
structure FiringTrace where
  insertInvoked : Bool
  errorPropagated : Bool
  jobsAfter : List (List Char)
deriving DecidableEq

/-- `generateDreamPost()` of `blogScheduler.ts`: the whole body runs
inside `try { ... } catch { log }`, so no error propagates. A pipeline
failure is caught before the insert statement is reached; an insert error
is thrown and caught. The body never references the `scheduledJobs` map,
which therefore passes through unchanged. -/
def generateDreamPost (env : DreamPipelineEnv)
    (insertResult : Except StageError Unit)
    (jobs : List (List Char)) : FiringTrace :=
  match (generateFullDreamPost env).1 with
  | .error _ => { insertInvoked := false, errorPropagated := false, jobsAfter := jobs }
  | .ok _ =>
    match insertResult with
    | .error _ => { insertInvoked := true, errorPropagated := false, jobsAfter := jobs }
    | .ok _ => { insertInvoked := true, errorPropagated := false, jobsAfter := jobs }

/-- `generateEducationalContent()` of `blogScheduler.ts`: same
try-catch-everything shape around `generateEducationalPost` plus insert. -/
def generateEducationalContent (env : EduPipelineEnv)
    (insertResult : Except StageError Unit)
    (jobs : List (List Char)) : FiringTrace :=
  match (generateEducationalPost env).1 with
  | .error _ => { insertInvoked := false, errorPropagated := false, jobsAfter := jobs }
  | .ok _ =>
    match insertResult with
    | .error _ => { insertInvoked := true, errorPropagated := false, jobsAfter := jobs }
    | .ok _ => { insertInvoked := true, errorPropagated := false, jobsAfter := jobs }

/-- The two content types the alternating evening trigger can produce. -/
inductive EveningContent where
  | dreamNarrative
  | educational
deriving DecidableEq

/-- Everything one evening firing consumes: the outcomes of whichever
pipeline runs, and of the insert. -/
structure EveningEnv where
  dreamEnv : DreamPipelineEnv
  eduEnv : EduPipelineEnv
  insertResult : Except StageError Unit

/-- `generateEveningPost()`: consult the `eveningPostIsDream` flag, run
the corresponding firing handler (which catches all its errors), then
toggle the flag. Returns the content type attempted, the new flag value,
and the firing trace. -/
def generateEveningPost (eveningPostIsDream : Bool) (env : EveningEnv)
    (jobs : List (List Char)) : EveningContent × Bool × FiringTrace :=
  if eveningPostIsDream then
    (.dreamNarrative, !eveningPostIsDream,
      generateDreamPost env.dreamEnv env.insertResult jobs)
  else
    (.educational, !eveningPostIsDream,
      generateEducationalContent env.eduEnv env.insertResult jobs)

/-- The content-type sequence of consecutive evening firings, threading
the flag and the job map through. -/
def eveningRun (eveningPostIsDream : Bool) (jobs : List (List Char)) :
    List EveningEnv → List EveningContent
  | [] => []
  | e :: es =>
    (generateEveningPost eveningPostIsDream e jobs).1 ::
      eveningRun (generateEveningPost eveningPostIsDream e jobs).2.1
        (generateEveningPost eveningPostIsDream e jobs).2.2.jobsAfter es

/-- A dream-pipeline environment in which every stage fails. -/
def failingDreamEnv : DreamPipelineEnv :=
  ⟨.error .apiError, .error .apiError, .error .apiError⟩

/-- An evening-firing environment in which everything fails. -/
def failingEveningEnv : EveningEnv :=
  ⟨failingDreamEnv, ⟨str "dream-science", .error .apiError, .throwErr⟩,
    .error .apiError⟩

/-- A dream-pipeline environment whose formatting stage throws (the other
stages succeed). -/
def c7DreamEnv : DreamPipelineEnv :=
  ⟨.ok ⟨str "Dream", str "content", false, []⟩,
   .ok ⟨none, none, none, none, none⟩,
   .error .apiError⟩

/-- An educational-pipeline environment whose generative call throws. -/
def c7EduEnv : EduPipelineEnv := ⟨str "sleep-tips", .error .apiError, .throwErr⟩

/-- A dream-pipeline environment in which every stage succeeds. -/
def c8DreamEnv : DreamPipelineEnv :=
  ⟨.ok ⟨str "Dream", str "content", false, []⟩,
   .ok ⟨none, none, none, none, none⟩,
   .ok ⟨str "Title", none, none, none, str "body", none, none, none⟩⟩

/-- An educational-pipeline environment whose generative call succeeds. -/
def c8EduEnv : EduPipelineEnv :=
  ⟨str "sleep-tips",
   .ok ⟨str "Title", none, none, none, str "body", none, none, none⟩,
   .throwErr⟩

-- =========================================================================
-- THEOREMS
-- =========================================================================

theorem mem_replaceSpaceRunsAux {c : Char} :
    ∀ (l : List Char) (b : Bool), c ∈ replaceSpaceRunsAux b l →
      c = '-' ∨ (c ∈ l ∧ isJsSpace c = false) := by
  intro l
  induction l with
  | nil => intro b h; simp [replaceSpaceRunsAux] at h
  | cons d t ih =>
    intro b h
    by_cases hd : isJsSpace d = true
    · cases b with
      | true =>
        simp only [replaceSpaceRunsAux, hd, if_true] at h
        rcases ih true h with h1 | ⟨h2, h3⟩
        · exact Or.inl h1
        · exact Or.inr ⟨List.mem_cons_of_mem d h2, h3⟩
      | false =>
        simp only [replaceSpaceRunsAux, hd, if_true] at h
        rcases List.mem_cons.mp h with h1 | h1
        · exact Or.inl h1
        · rcases ih true h1 with h2 | ⟨h2, h3⟩
          · exact Or.inl h2
          · exact Or.inr ⟨List.mem_cons_of_mem d h2, h3⟩
    · simp only [replaceSpaceRunsAux, hd, if_false] at h
      rcases List.mem_cons.mp h with h1 | h1
      · subst h1
        exact Or.inr ⟨List.mem_cons_self c t, by simpa using hd⟩
      · rcases ih false h1 with h2 | ⟨h2, h3⟩
        · exact Or.inl h2
        · exact Or.inr ⟨List.mem_cons_of_mem d h2, h3⟩

theorem mem_collapseHyphenRunsAux {c : Char} :
    ∀ (l : List Char) (b : Bool), c ∈ collapseHyphenRunsAux b l → c ∈ l := by
  intro l
  induction l with
  | nil => intro b h; simp [collapseHyphenRunsAux] at h
  | cons d t ih =>
    intro b h
    by_cases hd : d = '-'
    · cases b with
      | true =>
        simp only [collapseHyphenRunsAux, hd, if_true] at h
        exact List.mem_cons_of_mem d (ih true h)
      | false =>
        simp only [collapseHyphenRunsAux, hd, if_true] at h
        rcases List.mem_cons.mp h with h1 | h1
        · rw [h1, ← hd]; exact List.mem_cons_self d t
        · exact List.mem_cons_of_mem d (ih true h1)
    · simp only [collapseHyphenRunsAux, hd, if_false] at h
      rcases List.mem_cons.mp h with h1 | h1
      · rw [h1]; exact List.mem_cons_self d t
      · exact List.mem_cons_of_mem d (ih false h1)

theorem isSlugOut_of_keep {c : Char} (hk : isSlugKeep c = true)
    (hs : isJsSpace c = false) : isSlugOut c = true := by
  simp only [isSlugKeep, Bool.or_eq_true, Bool.and_eq_true, decide_eq_true_eq] at hk
  simp only [isSlugOut, Bool.or_eq_true, Bool.and_eq_true, decide_eq_true_eq]
  rcases hk with ((h | h) | h) | h
  · exact Or.inl (Or.inl h)
  · exact Or.inl (Or.inr h)
  · rw [hs] at h; exact absurd h (by simp)
  · exact Or.inr h

theorem isSlugOut_of_mem_generateSlug {c : Char} {t : List Char}
    (h : c ∈ generateSlug t) : isSlugOut c = true := by
  have h1 : c ∈ collapseHyphenRuns (replaceSpaceRuns ((jsToLower t).filter isSlugKeep)) :=
    List.take_subset 60 _ h
  have h2 := mem_collapseHyphenRunsAux _ false h1
  rcases mem_replaceSpaceRunsAux _ false h2 with h3 | ⟨h3, h4⟩
  · subst h3; decide
  · exact isSlugOut_of_keep (List.mem_filter.mp h3).2 h4

theorem jsToLowerChar_eq_self {c : Char} (h : isSlugOut c = true) :
    jsToLowerChar c = c := by
  simp only [isSlugOut, Bool.or_eq_true, Bool.and_eq_true, decide_eq_true_eq] at h
  rcases h with (h | h) | h
  · unfold jsToLowerChar; rw [if_neg (by omega)]
  · unfold jsToLowerChar; rw [if_neg (by omega)]
  · subst h; decide

theorem isSlugKeep_of_slugOut {c : Char} (h : isSlugOut c = true) :
    isSlugKeep c = true := by
  simp only [isSlugOut, Bool.or_eq_true, Bool.and_eq_true, decide_eq_true_eq] at h
  simp only [isSlugKeep, Bool.or_eq_true, Bool.and_eq_true, decide_eq_true_eq]
  rcases h with (h | h) | h
  · exact Or.inl (Or.inl (Or.inl h))
  · exact Or.inl (Or.inl (Or.inr h))
  · exact Or.inr h

theorem not_space_of_slugOut {c : Char} (h : isSlugOut c = true) :
    isJsSpace c = false := by
  by_cases hsp : isJsSpace c = true
  · exfalso
    simp only [isSlugOut, Bool.or_eq_true, Bool.and_eq_true, decide_eq_true_eq] at h
    simp only [isJsSpace, Bool.or_eq_true, Bool.and_eq_true, decide_eq_true_eq] at hsp
    rcases h with (h | h) | h
    · omega
    · omega
    · rw [h] at hsp; exact absurd hsp (by decide)
  · simpa using hsp

theorem replaceSpaceRunsAux_eq_self :
    ∀ (l : List Char), (∀ c ∈ l, isJsSpace c = false) →
      ∀ b, replaceSpaceRunsAux b l = l := by
  intro l
  induction l with
  | nil => intro _ b; rfl
  | cons d t ih =>
    intro h b
    have hd : isJsSpace d = false := h d (List.mem_cons_self d t)
    have ht := ih (fun c hc => h c (List.mem_cons_of_mem d hc)) false
    simp [replaceSpaceRunsAux, hd, ht]

theorem collapseHyphenRunsAux_true_head :
    ∀ (l : List Char) (d : Char) (t' : List Char),
      collapseHyphenRunsAux true l = d :: t' → d ≠ '-' := by
  intro l
  induction l with
  | nil => intro d t' h; simp [collapseHyphenRunsAux] at h
  | cons e es ih =>
    intro d t' h
    by_cases he : e = '-'
    · simp only [collapseHyphenRunsAux, he, if_true] at h
      exact ih d t' h
    · simp only [collapseHyphenRunsAux, he, if_false] at h
      rw [← (List.cons.injEq e (collapseHyphenRunsAux false es) d t').mp h |>.1]
      exact he

theorem noAdjHyp_collapseHyphenRunsAux :
    ∀ (l : List Char) (b : Bool), NoAdjHyp (collapseHyphenRunsAux b l) := by
  intro l
  induction l with
  | nil => intro b; simp [collapseHyphenRunsAux, NoAdjHyp]
  | cons e es ih =>
    intro b
    by_cases he : e = '-'
    · cases b with
      | true => simpa [collapseHyphenRunsAux, he] using ih true
      | false =>
        have hstep : collapseHyphenRunsAux false (e :: es) =
            '-' :: collapseHyphenRunsAux true es := by
          simp [collapseHyphenRunsAux, he]
        rw [NoAdjHyp, hstep, List.chain'_cons']
        refine ⟨?_, ih true⟩
        intro d hd
        cases hcase : collapseHyphenRunsAux true es with
        | nil => rw [hcase] at hd; simp at hd
        | cons x xs =>
          rw [hcase] at hd; simp at hd; subst hd
          intro hcontra
          exact collapseHyphenRunsAux_true_head es x xs hcase hcontra.2
    · have hstep : collapseHyphenRunsAux b (e :: es) =
          e :: collapseHyphenRunsAux false es := by
        cases b <;> simp [collapseHyphenRunsAux, he]
      rw [NoAdjHyp, hstep, List.chain'_cons']
      refine ⟨?_, ih false⟩
      intro d _ hcontra
      exact he hcontra.1

theorem collapseHyphenRunsAux_eq_self :
    ∀ (l : List Char), NoAdjHyp l →
      collapseHyphenRunsAux false l = l ∧
        ((∀ d ∈ l.head?, d ≠ '-') → collapseHyphenRunsAux true l = l) := by
  intro l
  induction l with
  | nil => intro _; exact ⟨rfl, fun _ => rfl⟩
  | cons e es ih =>
    intro h
    have hparts := List.chain'_cons'.mp h
    have hhead := hparts.1
    have htail : NoAdjHyp es := hparts.2
    by_cases he : e = '-'
    · refine ⟨?_, ?_⟩
      · have hno : ∀ d ∈ es.head?, d ≠ '-' := by
          intro d hd hcontra
          exact hhead d hd ⟨he, hcontra⟩
        have := (ih htail).2 hno
        simp [collapseHyphenRunsAux, he, this]
      · intro hne
        exact absurd he (hne e (by simp))
    · have := (ih htail).1
      exact ⟨by simp [collapseHyphenRunsAux, he, this],
        fun _ => by simp [collapseHyphenRunsAux, he, this]⟩

theorem noAdjHyp_generateSlug (t : List Char) : NoAdjHyp (generateSlug t) :=
  (noAdjHyp_collapseHyphenRunsAux _ false).take 60

theorem generateSlug_length_le (t : List Char) : (generateSlug t).length ≤ 60 := by
  unfold generateSlug
  exact min_le_left 60 _ |>.trans_eq rfl |>.trans_eq' (List.length_take 60 _)

theorem generateSlug_idem (t : List Char) :
    generateSlug (generateSlug t) = generateSlug t := by
  have hout : ∀ c ∈ generateSlug t, isSlugOut c = true :=
    fun c hc => isSlugOut_of_mem_generateSlug hc
  have h1 : jsToLower (generateSlug t) = generateSlug t := by
    unfold jsToLower
    have h0 : ∀ c ∈ generateSlug t, jsToLowerChar c = id c :=
      fun c hc => jsToLowerChar_eq_self (hout c hc)
    simpa using List.map_congr_left h0
  have h2 : (generateSlug t).filter isSlugKeep = generateSlug t :=
    List.filter_eq_self.mpr (fun c hc => isSlugKeep_of_slugOut (hout c hc))
  have h3 : replaceSpaceRuns (generateSlug t) = generateSlug t :=
    replaceSpaceRunsAux_eq_self _ (fun c hc => not_space_of_slugOut (hout c hc)) false
  have h4 : collapseHyphenRuns (generateSlug t) = generateSlug t :=
    (collapseHyphenRunsAux_eq_self _ (noAdjHyp_generateSlug t)).1
  have h5 : (generateSlug t).take 60 = generateSlug t :=
    List.take_of_length_le (generateSlug_length_le t)
  calc generateSlug (generateSlug t)
      = (collapseHyphenRuns (replaceSpaceRuns
          ((jsToLower (generateSlug t)).filter isSlugKeep))).take 60 := rfl
    _ = generateSlug t := by rw [h1, h2, h3, h4, h5]

theorem replaceSpaceRuns_eq_nil_iff (l : List Char) :
    replaceSpaceRuns l = [] ↔ l = [] := by
  cases l with
  | nil => simp [replaceSpaceRuns, replaceSpaceRunsAux]
  | cons c t =>
    by_cases hc : isJsSpace c = true <;>
      simp [replaceSpaceRuns, replaceSpaceRunsAux, hc]

theorem collapseHyphenRuns_eq_nil_iff (l : List Char) :
    collapseHyphenRuns l = [] ↔ l = [] := by
  cases l with
  | nil => simp [collapseHyphenRuns, collapseHyphenRunsAux]
  | cons c t =>
    by_cases hc : c = '-' <;>
      simp [collapseHyphenRuns, collapseHyphenRunsAux, hc]

theorem generateSlug_eq_nil_iff (t : List Char) :
    generateSlug t = [] ↔ ∀ c ∈ t, isSlugKeep (jsToLowerChar c) = false := by
  unfold generateSlug
  rw [List.take_eq_nil_iff, collapseHyphenRuns_eq_nil_iff,
    replaceSpaceRuns_eq_nil_iff, List.filter_eq_nil_iff]
  simp [jsToLower, List.mem_map]

-- =========================================================================
-- Claim C3
-- =========================================================================

/-- C3 (amended): `generateSlug` is deterministic (equal titles give equal
slugs) and idempotent, its output contains only lowercase alphanumerics
and hyphens, and its length is at most 60. The claim's remaining conjunct
— that the output has no leading or trailing hyphen — is false on the
code (see the counterexample) and is dropped. -/
theorem c3_generateSlug_det_idem_charset_length (t₁ t₂ t : List Char) :
    (t₁ = t₂ → generateSlug t₁ = generateSlug t₂) ∧
    generateSlug (generateSlug t) = generateSlug t ∧
    (∀ c ∈ generateSlug t, isSlugOut c = true) ∧
    (generateSlug t).length ≤ 60 :=
  ⟨fun h => by rw [h], generateSlug_idem t,
    fun _ hc => isSlugOut_of_mem_generateSlug hc, generateSlug_length_le t⟩

/-- C3 counterexample: the title `" hello"` (leading space) yields the slug
`"-hello"`, whose first character is a hyphen — refuting the claim that no
generated slug has a leading or trailing hyphen. -/
theorem c3_cex_leading_hyphen :
    generateSlug (str " hello") = str "-hello" ∧
      (generateSlug (str " hello")).head? = some '-' := by
  exact ⟨by decide, by decide⟩

/-- C3 witness: the amended theorem instantiated at the concrete title
`"Lucid Dreams"`. -/
theorem c3_witness :
    generateSlug (str "Lucid Dreams") = generateSlug (str "Lucid Dreams") ∧
    generateSlug (generateSlug (str "Lucid Dreams")) =
      generateSlug (str "Lucid Dreams") ∧
    (∀ c ∈ generateSlug (str "Lucid Dreams"), isSlugOut c = true) ∧
    (generateSlug (str "Lucid Dreams")).length ≤ 60 := by
  have h := c3_generateSlug_det_idem_charset_length
    (str "Lucid Dreams") (str "Lucid Dreams") (str "Lucid Dreams")
  exact ⟨h.1 rfl, h.2.1, h.2.2.1, h.2.2.2⟩

-- =========================================================================
-- Claim C4
-- =========================================================================

/-- C4 (amended): when the formatting-stage generative output omits the
slug field, the slug is derived mechanically from the title via
`generateSlug`; the derived slug is non-empty iff the title contains at
least one character kept by the slug rule (a basic-Latin letter, digit,
whitespace character, or hyphen). The claim's stronger statement — that
the derived slug is non-empty for *every* title — is false on the code
(see the counterexample). -/
theorem c4_slug_derived_from_title (p : ParsedBlogJson) (h : p.slug? = none) :
    (formatBlogPost p).slug = generateSlug p.title ∧
    ((formatBlogPost p).slug ≠ [] ↔
      ∃ c ∈ p.title, isSlugKeep (jsToLowerChar c) = true) := by
  have hs : (formatBlogPost p).slug = generateSlug p.title := by
    simp [formatBlogPost, jsOrStr, h]
  refine ⟨hs, ?_⟩
  rw [hs, ← not_iff_not]
  push_neg
  rw [generateSlug_eq_nil_iff]
  constructor
  · intro hall c hc
    simpa using hall c hc
  · intro hall c hc
    simpa using hall c hc

/-- C4 counterexample: a parsed response with no slug field and title
`"!!!"` produces an *empty* slug, refuting the claim that the derived slug
is non-empty for every title. -/
theorem c4_cex_empty_slug :
    (ParsedBlogJson.slug? ⟨str "!!!", none, none, none, str "b", none, none,
        none⟩) = none ∧
    (formatBlogPost ⟨str "!!!", none, none, none, str "b", none, none,
        none⟩).slug = [] := by
  exact ⟨rfl, by decide⟩

/-- C4 witness: the amended theorem instantiated at a slug-less parsed
response with title `"Dream Meaning"`, whose derived slug is non-empty. -/
theorem c4_witness :
    (formatBlogPost ⟨str "Dream Meaning", none, none, none, str "b", none,
        none, none⟩).slug =
      generateSlug (str "Dream Meaning") ∧
    (formatBlogPost ⟨str "Dream Meaning", none, none, none, str "b", none,
        none, none⟩).slug ≠ [] := by
  have h := c4_slug_derived_from_title
    ⟨str "Dream Meaning", none, none, none, str "b", none, none, none⟩ rfl
  exact ⟨h.1, h.2.mpr ⟨'D', by decide, by decide⟩⟩

-- =========================================================================
-- Claim C1
-- =========================================================================

/-- C1 (amended): for a successfully parsed validator response on one of
the four known categories, a reported confidence of at most 0.7 makes the
returned verdict `isValid = false` regardless of the reported `isValid`
value; the fail-open `isValid = true` default applies only to a throwing
service call (and to text-less responses and unknown categories), not to
parsed low-confidence responses. -/
theorem c1_low_confidence_fail_closed (content title cat : List Char)
    (r : ValidationJson) (hcat : cat ∈ STRICT_CATEGORY_KEYS)
    (hconf : r.confidence ≤ mkRat 7 10) :
    ((validateCategoryFit content title cat (.parsed r)).1).isValid = false ∧
    ((validateCategoryFit content title cat .throwErr).1).isValid = true := by
  constructor
  · simp only [validateCategoryFit, hcat, not_true_eq_false, if_false]
    rw [decide_eq_false (not_lt.mpr hconf)]
    exact Bool.and_false _
  · simp [validateCategoryFit, hcat]

/-- C1 counterexample: a parsed response reporting `isValid: true` with
confidence 0.4 (≤ 0.7) on category `"dream-stories"` is returned with
`isValid = false`, not the claimed fail-open `isValid = true`. -/
theorem c1_cex_low_confidence_not_valid :
    ((validateCategoryFit (str "body") (str "title") (str "dream-stories")
      (.parsed ⟨true, mkRat 2 5, none, none⟩)).1).isValid = false := by
  decide

/-- C1 witness: the amended theorem instantiated at category
`"dream-stories"` and a parsed response with confidence 0.4. -/
theorem c1_witness :
    ((validateCategoryFit (str "b") (str "t") (str "dream-stories")
      (.parsed ⟨true, mkRat 2 5, none, none⟩)).1).isValid = false ∧
    ((validateCategoryFit (str "b") (str "t") (str "dream-stories")
      .throwErr).1).isValid = true :=
  c1_low_confidence_fail_closed (str "b") (str "t") (str "dream-stories")
    ⟨true, mkRat 2 5, none, none⟩ (by decide) (by decide)

-- =========================================================================
-- Claim C10
-- =========================================================================

/-- C10: for any intended category outside the four
`STRICT_CATEGORY_DEFINITIONS` keys, `validateCategoryFit` returns
`{isValid: true}` immediately and the generative service is never invoked
(the second component, the was-the-service-called flag, is `false`),
whatever the hypothetical service outcome would have been. -/
theorem c10_unknown_category_valid_without_call (content title cat : List Char)
    (outcome : ValidatorOutcome) (h : cat ∉ STRICT_CATEGORY_KEYS) :
    validateCategoryFit content title cat outcome = ({ isValid := true }, false) := by
  simp [validateCategoryFit, h]

/-- C10 witness: the theorem instantiated at the unknown category
`"general"` with a would-be parsed outcome. -/
theorem c10_witness :
    validateCategoryFit (str "b") (str "t") (str "general")
      (.parsed ⟨false, 1, none, none⟩) = ({ isValid := true }, false) :=
  c10_unknown_category_valid_without_call (str "b") (str "t") (str "general")
    (.parsed ⟨false, 1, none, none⟩) (by decide)

-- =========================================================================
-- Freshness-selector lemmas
-- =========================================================================

theorem pickAt_mem {l : List Scored} (k : Nat) (h : l ≠ []) : pickAt l k ∈ l := by
  have hlen : 0 < l.length := List.length_pos.mpr h
  have hidx : k % l.length < l.length := Nat.mod_lt _ hlen
  rw [pickAt, List.getD_eq_getElem l _ hidx]
  exact List.getElem_mem hidx

theorem mem_scoredItems {s : Scored} {items recentlyUsed : List (List Char)}
    (h : s ∈ scoredItems items recentlyUsed) :
    s.item ∈ items ∧ s.similarity = itemSimilarity s.item recentlyUsed := by
  rcases List.mem_map.mp h with ⟨a, ha, rfl⟩
  exact ⟨ha, rfl⟩

theorem freshItems_eq_nil {items recentlyUsed : List (List Char)}
    (h : ∀ it ∈ items, ¬ itemSimilarity it recentlyUsed < mkRat 3 10) :
    freshItems items recentlyUsed = [] := by
  rw [freshItems, List.filter_eq_nil_iff]
  intro s hs
  rcases List.mem_map.mp hs with ⟨a, ha, rfl⟩
  simpa using h a ha

theorem freshItems_ne_nil {items recentlyUsed : List (List Char)}
    (h : ∃ it ∈ items, itemSimilarity it recentlyUsed < mkRat 3 10) :
    freshItems items recentlyUsed ≠ [] := by
  rcases h with ⟨it, hit, hlt⟩
  intro hnil
  have hm : (⟨it, itemSimilarity it recentlyUsed⟩ : Scored) ∈
      freshItems items recentlyUsed := by
    rw [freshItems, List.mem_filter]
    exact ⟨List.mem_map.mpr ⟨it, hit, rfl⟩, by simpa using hlt⟩
  rw [hnil] at hm
  exact absurd hm (List.not_mem_nil _)

theorem countP_lt_five_of_sorted (l : List Scored) (j : Nat)
    (hj : j < (sortBySimilarity l).length) (hj5 : j < 5) :
    l.countP
      (fun s => s.similarity < ((sortBySimilarity l).get ⟨j, hj⟩).similarity)
      < 5 := by
  have hperm := List.perm_insertionSort
    (fun a b : Scored => a.similarity ≤ b.similarity) l
  have hsorted := List.sorted_insertionSort
    (fun a b : Scored => a.similarity ≤ b.similarity) l
  set L := sortBySimilarity l with hLdef
  set x := L.get ⟨j, hj⟩ with hxdef
  have hcount : l.countP (fun s => s.similarity < x.similarity) =
      L.countP (fun s => s.similarity < x.similarity) :=
    (hperm.countP_eq _).symm
  rw [hcount, ← List.take_append_drop j L, List.countP_append]
  have hdrop_eq : L.drop j = x :: L.drop (j + 1) := by
    rw [hxdef, List.get_eq_getElem]
    exact List.drop_eq_getElem_cons hj
  have hdsorted : (L.drop j).Sorted (fun a b => a.similarity ≤ b.similarity) :=
    List.Pairwise.sublist (List.drop_sublist j L) hsorted
  have hdropzero :
      (L.drop j).countP (fun s => s.similarity < x.similarity) = 0 := by
    rw [List.countP_eq_zero]
    intro a ha
    rw [hdrop_eq] at ha hdsorted
    rcases List.mem_cons.mp ha with rfl | ha2
    · simp
    · have hle : x.similarity ≤ a.similarity :=
        (List.sorted_cons.mp hdsorted).1 a ha2
      simpa using not_lt.mpr hle
  have htake_le : (L.take j).countP (fun s => s.similarity < x.similarity) ≤ j :=
    le_trans (List.countP_le_length _) (by
      rw [List.length_take]; exact min_le_left _ _)
  omega

theorem pickAt_take_eq_get (L : List Scored) (m k : Nat) (h : L.take m ≠ []) :
    ∃ (j : Nat) (hj : j < L.length), j < m ∧ pickAt (L.take m) k = L.get ⟨j, hj⟩ := by
  have hlen : 0 < (L.take m).length := List.length_pos.mpr h
  have hidx : k % (L.take m).length < (L.take m).length := Nat.mod_lt _ hlen
  have htlen : (L.take m).length = min m L.length := List.length_take m L
  have hltL : k % (L.take m).length < L.length := by omega
  have hltm : k % (L.take m).length < m := by omega
  refine ⟨k % (L.take m).length, hltL, hltm, ?_⟩
  rw [pickAt, List.getD_eq_getElem _ _ hidx, List.get_eq_getElem]
  exact List.getElem_take _

/-- The scored array is non-empty for a non-empty item pool, and so is the
sorted array. -/
theorem sortBySimilarity_scoredItems_ne_nil (recentlyUsed : List (List Char))
    {items : List (List Char)} (h : items ≠ []) :
    sortBySimilarity (scoredItems items recentlyUsed) ≠ [] := by
  intro h0
  have hperm := List.perm_insertionSort
    (fun a b : Scored => a.similarity ≤ b.similarity) (scoredItems items recentlyUsed)
  rw [sortBySimilarity] at h0
  rw [h0] at hperm
  have := hperm.symm.eq_nil
  rw [scoredItems, List.map_eq_nil_iff] at this
  exact h this

-- =========================================================================
-- Claim C5
-- =========================================================================

/-- C5 (amended): with the default `fallbackRandom = true` and a non-empty
candidate pool, `selectFreshItem` (i) returns one of the candidates;
(ii) whenever some candidate scores strictly below the 0.3 threshold, the
returned candidate scores strictly below 0.3; and (iii) when no candidate
scores strictly below 0.3, the returned candidate is one of the 5
lowest-scoring ones (fewer than 5 candidates score strictly below it).
The claim's phrasing "exceeds the threshold" (strictly above 0.3) is false
at the boundary — a candidate scoring exactly 0.3 is already excluded from
the fresh set — see the counterexample. -/
theorem c5_selectFreshItem_threshold (items recentlyUsed : List (List Char))
    (k : Nat) (hne : items ≠ []) :
    selectFreshItem items recentlyUsed true k ∈ items ∧
    ((∃ it ∈ items, itemSimilarity it recentlyUsed < mkRat 3 10) →
      itemSimilarity (selectFreshItem items recentlyUsed true k) recentlyUsed
        < mkRat 3 10) ∧
    ((∀ it ∈ items, ¬ itemSimilarity it recentlyUsed < mkRat 3 10) →
      items.countP
        (fun it => itemSimilarity it recentlyUsed <
          itemSimilarity (selectFreshItem items recentlyUsed true k) recentlyUsed)
        < 5) := by
  by_cases hex : ∃ it ∈ items, itemSimilarity it recentlyUsed < mkRat 3 10
  · have hfne := freshItems_ne_nil hex
    have hpos : (freshItems items recentlyUsed).length > 0 :=
      List.length_pos.mpr hfne
    have hsel : selectFreshItem items recentlyUsed true k =
        (pickAt (freshItems items recentlyUsed) k).item := by
      rw [selectFreshItem, if_pos hpos]
    have hmem : pickAt (freshItems items recentlyUsed) k ∈
        (scoredItems items recentlyUsed).filter
          (fun s => decide (s.similarity < mkRat 3 10)) := by
      rw [← freshItems]; exact pickAt_mem k hfne
    have hfm := List.mem_filter.mp hmem
    have hsc := mem_scoredItems hfm.1
    refine ⟨?_, ?_, ?_⟩
    · rw [hsel]; exact hsc.1
    · intro _
      rw [hsel, ← hsc.2]
      simpa using hfm.2
    · intro hall
      rcases hex with ⟨it, hit, hlt⟩
      exact absurd hlt (hall it hit)
  · have hall : ∀ it ∈ items, ¬ itemSimilarity it recentlyUsed < mkRat 3 10 :=
      fun it hit hlt => hex ⟨it, hit, hlt⟩
    have hfnil : freshItems items recentlyUsed = [] := freshItems_eq_nil hall
    have hnotpos : ¬ (freshItems items recentlyUsed).length > 0 := by
      simp [hfnil]
    have hLne := sortBySimilarity_scoredItems_ne_nil recentlyUsed hne
    have hLpos : 0 < (sortBySimilarity (scoredItems items recentlyUsed)).length :=
      List.length_pos.mpr hLne
    have htne : (sortBySimilarity (scoredItems items recentlyUsed)).take
        (min 5 (sortBySimilarity (scoredItems items recentlyUsed)).length) ≠ [] := by
      intro h0
      rcases List.take_eq_nil_iff.mp h0 with h1 | h1
      · rcases Nat.min_eq_zero_iff.mp h1 with h2 | h2
        · exact absurd h2 (by decide)
        · omega
      · exact hLne h1
    have hsel : selectFreshItem items recentlyUsed true k =
        (pickAt ((sortBySimilarity (scoredItems items recentlyUsed)).take
          (min 5 (sortBySimilarity (scoredItems items recentlyUsed)).length)) k).item := by
      rw [selectFreshItem, if_neg hnotpos, if_pos rfl]
    obtain ⟨j, hj, hj5, hpick⟩ := pickAt_take_eq_get
      (sortBySimilarity (scoredItems items recentlyUsed))
      (min 5 (sortBySimilarity (scoredItems items recentlyUsed)).length) k htne
    have hj5x : j < 5 := lt_of_lt_of_le hj5 (min_le_left _ _)
    have hxmem : (sortBySimilarity (scoredItems items recentlyUsed)).get ⟨j, hj⟩ ∈
        scoredItems items recentlyUsed := by
      have hperm : List.Perm (sortBySimilarity (scoredItems items recentlyUsed))
          (scoredItems items recentlyUsed) :=
        List.perm_insertionSort _ _
      exact hperm.mem_iff.mp (List.get_mem _ _ _)
    have hxsc := mem_scoredItems hxmem
    refine ⟨?_, ?_, ?_⟩
    · rw [hsel, hpick]; exact hxsc.1
    · intro hcontra; exact absurd hcontra hex
    · intro _
      rw [hsel, hpick, ← hxsc.2]
      have hcount := countP_lt_five_of_sorted
        (scoredItems items recentlyUsed) j hj hj5x
      unfold scoredItems at hcount
      rw [List.countP_map] at hcount
      simpa [Function.comp, scoredItems] using hcount

/-- C5 counterexample: with history `["alpha bravo charlie"]`, the
candidate `"alpha bravo charlie delta echo foxtrot golf hotel india
juliet"` scores exactly 0.3 (3 matched words of 10) — it does not *exceed*
the threshold — yet it is excluded from the fresh set, and the fallback
can return the other candidate, which scores 0.5. So `selectFreshItem`
returns a candidate whose similarity exceeds 0.3 although not every
candidate exceeds 0.3, refuting the claim as stated. -/
theorem c5_cex_boundary :
    selectFreshItem
      [str "alpha bravo charlie delta echo foxtrot golf hotel india juliet",
       str "alpha bravo charlie denom enoms finoms"]
      [str "alpha bravo charlie"] true 1
      = str "alpha bravo charlie denom enoms finoms" ∧
    mkRat 3 10 < itemSimilarity (str "alpha bravo charlie denom enoms finoms")
      [str "alpha bravo charlie"] ∧
    ¬ mkRat 3 10 < itemSimilarity
      (str "alpha bravo charlie delta echo foxtrot golf hotel india juliet")
      [str "alpha bravo charlie"] := by
  decide

/-- C5 witness: the amended theorem instantiated at a singleton pool with
empty history (similarity 0, fresh branch). -/
theorem c5_witness :
    selectFreshItem [str "alpha"] [] true 0 ∈ [str "alpha"] ∧
    itemSimilarity (selectFreshItem [str "alpha"] [] true 0) [] < mkRat 3 10 := by
  have h := c5_selectFreshItem_threshold [str "alpha"] [] 0 (by decide)
  exact ⟨h.1, h.2.1 ⟨str "alpha", by decide, by decide⟩⟩

-- =========================================================================
-- Topic-selection lemmas
-- =========================================================================

theorem sortBySimilarity_ne_nil {l : List Scored} (h : l ≠ []) :
    sortBySimilarity l ≠ [] := by
  intro h0
  have hperm : List.Perm (sortBySimilarity l) l := List.perm_insertionSort _ _
  rw [h0] at hperm
  exact h hperm.symm.eq_nil

theorem mem_scoredTopics {s : Scored} {allTopics usedTopics : List (List Char)}
    (h : s ∈ scoredTopics allTopics usedTopics) :
    s.item ∈ allTopics ∧ s.similarity = topicSimilarity s.item usedTopics := by
  rcases List.mem_map.mp h with ⟨a, ha, rfl⟩
  exact ⟨ha, rfl⟩

theorem freshTopics_eq_nil {allTopics usedTopics : List (List Char)}
    (h : ∀ t ∈ allTopics, ¬ topicSimilarity t usedTopics < mkRat 1 2) :
    freshTopics allTopics usedTopics = [] := by
  rw [freshTopics, List.filter_eq_nil_iff]
  intro s hs
  rcases List.mem_map.mp hs with ⟨a, ha, rfl⟩
  simpa using h a ha

-- =========================================================================
-- Claim C2
-- =========================================================================

/-- C2 (amended): when no topic in the pool scores strictly below the 0.5
threshold, `getRandomEducationalTopic` deterministically returns a topic of
minimal similarity (the head of the ascending stable sort), for every value
of the random source: it does not pick uniformly among the 5
lowest-similarity topics. -/
theorem c2_exhausted_pool_returns_min (allTopics usedTopics : List (List Char))
    (k : Nat) (hne : allTopics ≠ [])
    (hall : ∀ t ∈ allTopics, ¬ topicSimilarity t usedTopics < mkRat 1 2) :
    getRandomEducationalTopic allTopics usedTopics k ∈ allTopics ∧
    (∀ t ∈ allTopics,
      topicSimilarity (getRandomEducationalTopic allTopics usedTopics k) usedTopics
        ≤ topicSimilarity t usedTopics) ∧
    (∀ k2 : Nat, getRandomEducationalTopic allTopics usedTopics k2 =
      getRandomEducationalTopic allTopics usedTopics k) := by
  have hfnil : freshTopics allTopics usedTopics = [] := freshTopics_eq_nil hall
  have hnotpos : ¬ (freshTopics allTopics usedTopics).length > 0 := by
    simp [hfnil]
  have hsel : ∀ k2 : Nat, getRandomEducationalTopic allTopics usedTopics k2 =
      ((sortBySimilarity (scoredTopics allTopics usedTopics)).getD 0 ⟨[], 0⟩).item :=
    fun k2 => by rw [getRandomEducationalTopic, if_neg hnotpos]
  have hsne : scoredTopics allTopics usedTopics ≠ [] := by
    rw [scoredTopics]
    simpa [List.map_eq_nil_iff] using hne
  have hLne : sortBySimilarity (scoredTopics allTopics usedTopics) ≠ [] :=
    sortBySimilarity_ne_nil hsne
  have hsorted := List.sorted_insertionSort
    (fun a b : Scored => a.similarity ≤ b.similarity)
    (scoredTopics allTopics usedTopics)
  have hperm : List.Perm (sortBySimilarity (scoredTopics allTopics usedTopics))
      (scoredTopics allTopics usedTopics) := List.perm_insertionSort _ _
  cases hL : sortBySimilarity (scoredTopics allTopics usedTopics) with
  | nil => exact absurd hL hLne
  | cons a t =>
    have hgetD : (sortBySimilarity (scoredTopics allTopics usedTopics)).getD 0 ⟨[], 0⟩
        = a := by rw [hL]; rfl
    have hamem : a ∈ scoredTopics allTopics usedTopics := by
      apply hperm.mem_iff.mp
      rw [hL]
      exact List.mem_cons_self a t
    have hasc := mem_scoredTopics hamem
    have hmin : ∀ s ∈ scoredTopics allTopics usedTopics,
        a.similarity ≤ s.similarity := by
      intro s hs
      have hsmem : s ∈ a :: t := by rw [← hL]; exact hperm.symm.mem_iff.mp hs
      rcases List.mem_cons.mp hsmem with rfl | hst
      · exact le_refl _
      · have := hsorted
        rw [sortBySimilarity] at hL
        rw [hL] at this
        exact (List.sorted_cons.mp this).1 s hst
    refine ⟨?_, ?_, ?_⟩
    · rw [hsel k, hgetD]; exact hasc.1
    · intro t2 ht2
      rw [hsel k, hgetD, ← hasc.2]
      have : (⟨t2, topicSimilarity t2 usedTopics⟩ : Scored) ∈
          scoredTopics allTopics usedTopics :=
        List.mem_map.mpr ⟨t2, ht2, rfl⟩
      exact hmin _ this
    · intro k2; rw [hsel k2, hsel k]

/-- C2 counterexample: on a pool where every topic scores at least 0.5,
`getRandomEducationalTopic` returns `"alpha uno"` (the unique
minimal-similarity topic) for *every* value of the random source, although
`"alpha bravo uno"` is also among the 5 lowest-similarity topics (only
`"alpha bravo"` scores above it and four others) — so not each of the 5
lowest topics is a possible return value, refuting the claimed uniform
fallback. -/
theorem c2_cex_fallback_deterministic :
    (∀ t ∈ c2Pool, ¬ topicSimilarity t c2Used < mkRat 1 2) ∧
    (∀ k : Nat, getRandomEducationalTopic c2Pool c2Used k = str "alpha uno") ∧
    topicSimilarity (str "alpha bravo uno") c2Used <
      topicSimilarity (str "alpha bravo") c2Used ∧
    str "alpha bravo uno" ≠ str "alpha uno" := by
  refine ⟨by decide, fun k => ?_, by decide, by decide⟩
  rfl

/-- C2 witness: the amended theorem instantiated at the six-topic pool. -/
theorem c2_witness :
    getRandomEducationalTopic c2Pool c2Used 0 ∈ c2Pool ∧
    (∀ t ∈ c2Pool,
      topicSimilarity (getRandomEducationalTopic c2Pool c2Used 0) c2Used
        ≤ topicSimilarity t c2Used) := by
  have h := c2_exhausted_pool_returns_min c2Pool c2Used 0 (by decide) (by decide)
  exact ⟨h.1, h.2.1⟩


-- =========================================================================
-- Evening-alternation lemmas
-- =========================================================================

theorem eveningRun_cons (flag : Bool) (jobs : List (List Char))
    (e : EveningEnv) (es : List EveningEnv) :
    eveningRun flag jobs (e :: es) =
      (if flag then EveningContent.dreamNarrative else .educational) ::
        eveningRun (!flag) (generateEveningPost flag e jobs).2.2.jobsAfter es := by
  cases flag <;> simp [eveningRun, generateEveningPost]

theorem eveningRun_length (envs : List EveningEnv) :
    ∀ (flag : Bool) (jobs : List (List Char)),
      (eveningRun flag jobs envs).length = envs.length := by
  induction envs with
  | nil => intro flag jobs; rfl
  | cons e es ih =>
    intro flag jobs
    rw [eveningRun_cons]
    simp [ih]

theorem eveningRun_chain (envs : List EveningEnv) :
    ∀ (flag : Bool) (jobs : List (List Char)),
      (eveningRun flag jobs envs).Chain' (fun a b => a ≠ b) := by
  induction envs with
  | nil => intro flag jobs; simp [eveningRun]
  | cons e es ih =>
    intro flag jobs
    rw [eveningRun_cons]
    apply List.chain'_cons'.mpr
    refine ⟨?_, ih (!flag) _⟩
    intro d hd
    cases es with
    | nil => simp [eveningRun] at hd
    | cons e2 es2 =>
      rw [eveningRun_cons] at hd
      simp only [List.head?_cons, Option.mem_def, Option.some.injEq] at hd
      subst hd
      cases flag <;> decide

-- =========================================================================
-- Claim C6
-- =========================================================================

/-- C6: from the fresh alternation state (`eveningPostIsDream = false`),
any N consecutive evening firings produce exactly N content types, the
first educational, strictly alternating between educational and
dream-narrative — for every combination of per-firing generation and
persistence outcomes. -/
theorem c6_evening_alternation (envs : List EveningEnv) (jobs : List (List Char)) :
    (eveningRun false jobs envs).Chain' (fun a b => a ≠ b) ∧
    (eveningRun false jobs envs).length = envs.length ∧
    (envs ≠ [] → (eveningRun false jobs envs).head? = some .educational) := by
  refine ⟨eveningRun_chain envs false jobs, eveningRun_length envs false jobs, ?_⟩
  intro hne
  cases envs with
  | nil => exact absurd rfl hne
  | cons e es => rw [eveningRun_cons]; rfl

/-- C6 witness: two consecutive firings in which every stage and the
insert fail still yield the alternating sequence
`[educational, dreamNarrative]`. -/
theorem c6_witness :
    (eveningRun false [] [failingEveningEnv, failingEveningEnv]).Chain'
      (fun a b => a ≠ b) ∧
    (eveningRun false [] [failingEveningEnv, failingEveningEnv]).length = 2 ∧
    (eveningRun false [] [failingEveningEnv, failingEveningEnv]).head? =
      some .educational := by
  have h := c6_evening_alternation [failingEveningEnv, failingEveningEnv] []
  exact ⟨h.1, by simpa using h.2.1, h.2.2 (by simp)⟩

-- =========================================================================
-- Claim C7
-- =========================================================================

/-- C7: if any generation stage of a scheduled firing fails (dream or
educational handler), the persistence insert is never invoked, the error
is caught inside the firing handler (never propagated), and the
registered-jobs map is unchanged. -/
theorem c7_stage_failure_isolated (denv : DreamPipelineEnv)
    (eenv : EduPipelineEnv) (ins : Except StageError Unit)
    (jobs : List (List Char)) :
    (∀ e : StageError, (generateFullDreamPost denv).1 = .error e →
      generateDreamPost denv ins jobs =
        { insertInvoked := false, errorPropagated := false, jobsAfter := jobs }) ∧
    (∀ e : StageError, (generateEducationalPost eenv).1 = .error e →
      generateEducationalContent eenv ins jobs =
        { insertInvoked := false, errorPropagated := false, jobsAfter := jobs }) := by
  constructor
  · intro e he
    unfold generateDreamPost
    rw [he]
  · intro e he
    unfold generateEducationalContent
    rw [he]

/-- C7 witness: a firing whose formatting stage throws (dream handler) and
one whose generative call throws (educational handler): neither inserts,
neither propagates, the job map is untouched. -/
theorem c7_witness :
    (generateFullDreamPost c7DreamEnv).1 = .error .apiError ∧
    generateDreamPost c7DreamEnv (.ok ()) [str "morningDream", str "eveningPost"] =
      { insertInvoked := false, errorPropagated := false,
        jobsAfter := [str "morningDream", str "eveningPost"] } ∧
    generateEducationalContent c7EduEnv (.ok ())
        [str "morningDream", str "eveningPost"] =
      { insertInvoked := false, errorPropagated := false,
        jobsAfter := [str "morningDream", str "eveningPost"] } := by
  have h := c7_stage_failure_isolated c7DreamEnv c7EduEnv (.ok ())
    [str "morningDream", str "eveningPost"]
  exact ⟨rfl, h.1 .apiError rfl, h.2 .apiError rfl⟩

-- =========================================================================
-- Claim C8
-- =========================================================================

/-- C8 (amended): the Category Fit Validator is invoked before the
pipeline returns only in the *educational* pipeline — whenever
`generateEducationalPost` returns a post, its call trace contains the
`validateCategoryFit` invocation; the dream-narrative pipeline
`generateFullDreamPost` never invokes the validator, on any run. -/
theorem c8_validator_only_in_educational (denv : DreamPipelineEnv)
    (eenv : EduPipelineEnv) :
    Action.validatorCall ∉ (generateFullDreamPost denv).2 ∧
    (∀ post : GeneratedBlogPost, (generateEducationalPost eenv).1 = .ok post →
      Action.validatorCall ∈ (generateEducationalPost eenv).2) := by
  constructor
  · rcases denv with ⟨dr, ar, fr⟩
    cases dr <;> cases ar <;> cases fr <;> simp [generateFullDreamPost]
  · intro post hpost
    unfold generateEducationalPost at hpost ⊢
    by_cases hc : eenv.category ∈ STRICT_CATEGORY_KEYS
    · rw [if_pos hc] at hpost ⊢
      cases hfr : eenv.formatResult with
      | error e => rw [hfr] at hpost; exact absurd hpost (by simp)
      | ok parsed => simp
    · rw [if_neg hc] at hpost
      exact absurd hpost (by simp)

/-- C8 counterexample: a fully successful dream-narrative run returns its
result without ever invoking `validateCategoryFit`, refuting the claim
that every pipeline run invokes the validator before returning. -/
theorem c8_cex_dream_pipeline_never_validates :
    pipelineOk (generateFullDreamPost c8DreamEnv).1 = true ∧
    Action.validatorCall ∉ (generateFullDreamPost c8DreamEnv).2 := by
  decide

/-- C8 witness: the amended theorem at a failing dream run and a
successful educational run. -/
theorem c8_witness :
    Action.validatorCall ∉ (generateFullDreamPost failingDreamEnv).2 ∧
    Action.validatorCall ∈ (generateEducationalPost c8EduEnv).2 := by
  have h := c8_validator_only_in_educational failingDreamEnv c8EduEnv
  exact ⟨h.1,
    h.2 (formatBlogPost ⟨str "Title", none, none, none, str "body", none,
      none, none⟩) rfl⟩

-- =========================================================================
-- Claim C9
-- =========================================================================

/-- C9: for every parseable analysis response, the validated analysis has
every emotion intensity clamped into [0, 100] (non-numeric intensities
default to 50); every significance is one of high/medium/low, with
unrecognized values mapped to `"medium"`; and every missing field gets a
safe empty or neutral default (interpretation text, symbol name
`"Unknown"`/empty meaning, emotion name `"Unknown"`/default color, empty
themes, empty advice) instead of raising. -/
theorem c9_analysis_defaults (p : RawAnalysis) (rs : RawSymbol)
    (re : RawEmotion) (v : List Char) :
    (∀ e ∈ (analyzeDreamParse p).emotions,
      0 ≤ e.intensity ∧ e.intensity ≤ 100) ∧
    (∀ s ∈ (analyzeDreamParse p).symbols,
      s.significance = str "high" ∨ s.significance = str "medium" ∨
        s.significance = str "low") ∧
    (re.intensity? = none → (parseEmotion re).intensity = 50) ∧
    (¬(v = str "high" ∨ v = str "medium" ∨ v = str "low") →
      parseSignificance (some v) = str "medium") ∧
    (p.interpretation? = none →
      (analyzeDreamParse p).interpretation =
        str "Unable to generate interpretation.") ∧
    (rs.name? = none → (parseSymbol rs).name = str "Unknown") ∧
    (rs.meaning? = none → (parseSymbol rs).meaning = []) ∧
    (re.name? = none → (parseEmotion re).name = str "Unknown") ∧
    (re.color? = none → (parseEmotion re).color = str "#8b5cf6") ∧
    (p.themes? = none → (analyzeDreamParse p).themes = []) ∧
    (p.advice? = none → (analyzeDreamParse p).advice = []) := by
  refine ⟨?_, ?_, ?_, ?_, ?_, ?_, ?_, ?_, ?_, ?_, ?_⟩
  · intro e he
    rw [analyzeDreamParse] at he
    simp only [List.mem_map] at he
    rcases he with ⟨re2, _, rfl⟩
    rw [parseEmotion]
    cases hint : re2.intensity? with
    | none => rw [parseIntensity]; norm_num
    | some x =>
      rw [parseIntensity]
      constructor
      · exact le_min (by norm_num) (le_max_left 0 x)
      · exact min_le_left 100 _
  · intro s hs
    rw [analyzeDreamParse] at hs
    simp only [List.mem_map] at hs
    rcases hs with ⟨rs2, _, rfl⟩
    rw [parseSymbol]
    cases hsig : rs2.significance? with
    | none => rw [parseSignificance]; right; left; rfl
    | some w =>
      rw [parseSignificance]
      by_cases hw : w = str "high" ∨ w = str "medium" ∨ w = str "low"
      · rw [if_pos hw]; exact hw
      · rw [if_neg hw]; right; left; rfl
  · intro h; rw [parseEmotion, h, parseIntensity]
  · intro h; rw [parseSignificance, if_neg h]
  · intro h; rw [analyzeDreamParse, h]; rfl
  · intro h; rw [parseSymbol, h]; rfl
  · intro h; rw [parseSymbol, h]; rfl
  · intro h; rw [parseEmotion, h]; rfl
  · intro h; rw [parseEmotion, h]; rfl
  · intro h; rw [analyzeDreamParse, h]; rfl
  · intro h; rw [analyzeDreamParse, h]; rfl

/-- C9 witness: an all-missing response object and an unrecognized
significance value `"extreme"` get every default. -/
theorem c9_witness :
    (parseEmotion ⟨none, none, none⟩).intensity = 50 ∧
    parseSignificance (some (str "extreme")) = str "medium" ∧
    (analyzeDreamParse ⟨none, none, none, none, none⟩).interpretation =
      str "Unable to generate interpretation." ∧
    (parseSymbol ⟨none, none, none⟩).name = str "Unknown" ∧
    (parseSymbol ⟨none, none, none⟩).meaning = [] ∧
    (parseEmotion ⟨none, none, none⟩).name = str "Unknown" ∧
    (parseEmotion ⟨none, none, none⟩).color = str "#8b5cf6" ∧
    (analyzeDreamParse ⟨none, none, none, none, none⟩).themes = [] ∧
    (analyzeDreamParse ⟨none, none, none, none, none⟩).advice = [] := by
  obtain ⟨h1, h2, h3, h4, h5, h6, h7, h8, h9, h10, h11⟩ :=
    c9_analysis_defaults ⟨none, none, none, none, none⟩ ⟨none, none, none⟩
      ⟨none, none, none⟩ (str "extreme")
  exact ⟨h3 rfl, h4 (by decide), h5 rfl, h6 rfl, h7 rfl, h8 rfl, h9 rfl,
    h10 rfl, h11 rfl⟩


end DreamBlog
